import Mathlib

/-!
Verification of the `glasses-detector-js` dev-server launcher (`src/serve.py`)
against its natural-language specification.

The script constructs a livereload `Server`, registers four watch patterns,
and serves the current directory on port 5173.  We embed the script as the
trace of observable calls it performs, and model the parts of the livereload
library that the spec describes (watch registration, static serving with
HTML script injection, bind failure, and the reload policy) from the spec's
words, since the library's code is not part of this repository.
-/

namespace DevServe

/-- An observable effect performed by the script: constructing the server,
registering a watch pattern, or calling `serve` with a port and root. -/
inductive Event where
  | serverInit : Event
  | watchReg (pat : String) : Event
  | serveCall (port : Nat) (root : String) : Event
  deriving DecidableEq, Repr

/-- The trace of observable calls made by `main` in `src/serve.py`, in
source order: `Server()`, four `server.watch(...)` calls, then
`server.serve(port=5173, root must be the current directory)`. -/
def mainEvents : List Event :=
  [ Event.serverInit,
    Event.watchReg "index.html",
    Event.watchReg "batch.html",
    Event.watchReg "styles.css",
    Event.watchReg "src/*.js",
    Event.serveCall 5173 "." ]

/-- `main` reads neither command-line arguments, nor environment variables,
nor any configuration file (`src/serve.py` contains no such access), so the
trace of the program is the same constant for every ambient environment. -/
def programRun (_argv : List String) (_envVars : String → Option String) :
    List Event :=
  mainEvents

/-- The watch patterns registered in a trace, in order. -/
def watchPatterns (es : List Event) : List String :=
  es.filterMap fun e =>
    match e with
    | Event.watchReg p => some p
    | _ => none

/-- Whether an event is a call to `serve`. -/
def isServeCall : Event → Bool
  | Event.serveCall _ _ => true
  | _ => false

/-- Whether an event constructs the server object. -/
def isServerInit : Event → Bool
  | Event.serverInit => true
  | _ => false

/-- The `(port, root)` arguments of the `serve` calls in a trace, in order. -/
def serveCalls (es : List Event) : List (Nat × String) :=
  es.filterMap fun e =>
    match e with
    | Event.serveCall port root => some (port, root)
    | _ => none

/-- The suffix of a trace starting at the first `serve` call (empty when the
trace never calls `serve`). -/
def fromServe (es : List Event) : List Event :=
  es.dropWhile fun e => !(isServeCall e)

/-- Top-level module semantics of `src/serve.py`: the module body only
defines `main` (no effect) and then runs `main()` exactly once when and only
when the interpreter sets `__name__` to `"__main__"`. -/
def moduleImportEffects (moduleName : String) : List Event :=
  if moduleName = "__main__" then mainEvents else []

/-- How many times the module body calls `main`, as a function of the
interpreter-supplied `__name__`. -/
def mainCallCount (moduleName : String) : Nat :=
  if moduleName = "__main__" then 1 else 0

/-- The two lifecycle states of the server described by the spec. -/
inductive LifeState where
  | Stopped : LifeState
  | Serving : LifeState
  deriving DecidableEq, Repr

/-- Modelled from the spec: the lifecycle transition of the livereload
library's `serve` loop, whose code is not in this repository.  `serve`
moves the server one way from Stopped to Serving, and a Serving server
keeps serving: no step leaves the Serving state, so `serve` never returns
(the process runs until externally terminated). -/
def lifeStep : LifeState → LifeState
  | LifeState.Stopped => LifeState.Serving
  | LifeState.Serving => LifeState.Serving

/-- The lifecycle state after `n` steps from `s`. -/
def lifeAfter : Nat → LifeState → LifeState
  | 0, s => s
  | n + 1, s => lifeAfter n (lifeStep s)

/-- Modelled from the spec: the livereload library's `Server.watch`, whose
code is not in this repository.  It "registers a file path or glob pattern
into WatchSet. No return value. No validation beyond accepting any string":
it appends the pattern to the ordered WatchSet and returns unit for every
string. -/
def watch (ws : List String) (pat : String) : List String × Unit :=
  (ws ++ [pat], ())

/-- Modelled from the spec: glob matching of a watch pattern against a
path, used by the livereload library (not in this repository) to decide
which filesystem changes trigger a notification.  `*` matches any
(possibly empty) sequence of characters; every other character matches
itself. -/
def globMatchL : List Char → List Char → Bool
  | [], cs => cs.isEmpty
  | '*' :: ps, cs => cs.tails.any fun t => globMatchL ps t
  | _ :: _, [] => false
  | p :: ps, c :: cs => (p = c) && globMatchL ps cs

/-- Whether watch pattern `pat` matches path `path`. -/
def globMatch (pat path : String) : Bool :=
  globMatchL pat.toList path.toList

/-- The files of a filesystem snapshot that a watch pattern matches. -/
def matchedFiles (pat : String) (fs : List String) : List String :=
  fs.filter fun f => globMatch pat f

/-- Modelled from the spec: whether a path is a recognized stylesheet, the
key of the livereload library's reload heuristic ("stylesheet extension ⇒
style-only, else ⇒ full reload"); the library's code is not in this
repository. -/
def recognizedStylesheet (path : String) : Bool :=
  List.isSuffixOf ".css".toList path.toList

/-- The two kinds of reload notification the spec describes. -/
inductive ReloadKind where
  | liveCSS : ReloadKind
  | fullReload : ReloadKind
  deriving DecidableEq, Repr

/-- Modelled from the spec: the kind of notification emitted for a changed
path — live style-injection for a recognized stylesheet, full page reload
otherwise. -/
def reloadKindFor (path : String) : ReloadKind :=
  if recognizedStylesheet path then ReloadKind.liveCSS
  else ReloadKind.fullReload

/-- Modelled from the spec: on a filesystem modification of `changed`, the
server emits one notification to every open client connection when the
path matches some pattern of the WatchSet; the kind of the notification is
`reloadKindFor changed`. -/
def notifyClients (ws : List String) (clients : List Nat)
    (changed : String) : List (Nat × ReloadKind) :=
  if ws.any fun p => globMatch p changed then
    clients.map fun c => (c, reloadKindFor changed)
  else []

/-- Modelled from the spec: the reload-script fragment that the livereload
library (not in this repository) injects into HTML responses to open a
notification channel back to the server. -/
def reloadScriptFragment : String :=
  "<script src=\"/livereload.js\"></script>"

/-- Modelled from the spec: the body of a static-file HTTP response.  For
an HTML file, the original content plus exactly one injected reload-script
fragment and nothing else; for every other file, the file's content
byte-identical. -/
def respondBody (isHtml : Bool) (fileContent : String) : String :=
  if isHtml then fileContent ++ reloadScriptFragment else fileContent

/-- The spec's startup error taxonomy for `serve`. -/
inductive ServeError where
  | BindError : ServeError
  | PathError : ServeError
  deriving DecidableEq, Repr

/-- Modelled from the spec: the outcome of calling `serve` — either a
fatal startup error, or entering the serving loop — together with the
number of HTTP requests served before that outcome. -/
structure StartResult where
  outcome : Option ServeError
  requestsServed : Nat
  deriving DecidableEq, Repr

/-- Modelled from the spec: startup of the livereload library's `serve`
(code not in this repository): it "fails with a BindError if the port is
already in use, or a PathError if root does not exist", in both cases
before serving any request; otherwise it binds and begins serving. -/
def serveStart (portFree : Bool) (rootExists : Bool) : StartResult :=
  if !portFree then { outcome := some ServeError.BindError, requestsServed := 0 }
  else if !rootExists then
    { outcome := some ServeError.PathError, requestsServed := 0 }
  else { outcome := none, requestsServed := 0 }

/-- Claim C1: `main` registers exactly the four watch patterns
`index.html`, `batch.html`, `styles.css`, `src/*.js`, in that order and no
others, and none of them occurs at or after the `serve` call. -/
theorem main_registers_exactly_four_patterns_before_serve :
    watchPatterns mainEvents =
      ["index.html", "batch.html", "styles.css", "src/*.js"] ∧
    watchPatterns (fromServe mainEvents) = [] := by
  decide

/-- Claim C2: for every ambient environment (argv and environment
variables), the program performs the same trace, whose unique `serve` call
has port `5173` and root `"."`. -/
theorem serve_args_hardcoded (argv : List String)
    (envVars : String → Option String) :
    programRun argv envVars = mainEvents ∧
    serveCalls (programRun argv envVars) = [(5173, ".")] := by
  refine ⟨rfl, ?_⟩
  show serveCalls mainEvents = [(5173, ".")]
  decide

/-- Claim C4: the WatchSet is mutated only during startup: the trace does
call `serve`, and no watch registration occurs at or after the `serve`
call, so after `serve` starts the WatchSet is never changed again. -/
theorem watchset_static_after_serve :
    mainEvents.any isServeCall = true ∧
    watchPatterns (fromServe mainEvents) = [] ∧
    fromServe mainEvents = [Event.serveCall 5173 "."] := by
  decide

/-- Claim C10: importing the module under any name other than `"__main__"`
performs no effect at all (no server construction, no watch registration,
no serve/bind), and under `"__main__"` the module calls `main` exactly
once, producing exactly `main`'s trace. -/
theorem import_has_no_side_effects (moduleName : String)
    (h : moduleName ≠ "__main__") :
    moduleImportEffects moduleName = [] ∧
    mainCallCount moduleName = 0 ∧
    moduleImportEffects "__main__" = mainEvents ∧
    mainCallCount "__main__" = 1 := by
  refine ⟨?_, ?_, ?_, ?_⟩
  · simp [moduleImportEffects, h]
  · simp [mainCallCount, h]
  · rfl
  · rfl

/-- Witness for C10 at the concrete module name `"serve"`. -/
theorem import_has_no_side_effects_witness :
    moduleImportEffects "serve" = [] ∧
    mainCallCount "serve" = 0 ∧
    moduleImportEffects "__main__" = mainEvents ∧
    mainCallCount "__main__" = 1 :=
  import_has_no_side_effects "serve" (by decide)

/-- Claim C3: `watch` accepts every string without validation and returns
unit (Python `None`), appending the pattern to the WatchSet; a pattern
matching no file of the filesystem never produces a match. -/
theorem watch_accepts_any_string (ws : List String) (pat : String)
    (fs : List String) (h : ∀ f ∈ fs, globMatch pat f = false) :
    watch ws pat = (ws ++ [pat], ()) ∧ matchedFiles pat fs = [] := by
  refine ⟨rfl, ?_⟩
  unfold matchedFiles
  rw [List.filter_eq_nil_iff]
  intro f hf
  simp [h f hf]

/-- Witness for C3: watching the non-existent pattern `missing.xyz`
succeeds and matches nothing in a snapshot of the project's files. -/
theorem watch_accepts_any_string_witness :
    (∀ f ∈ ["index.html", "batch.html", "styles.css"],
        globMatch "missing.xyz" f = false) ∧
    (watch [] "missing.xyz" = (["missing.xyz"], ()) ∧
      matchedFiles "missing.xyz" ["index.html", "batch.html", "styles.css"] = []) :=
  ⟨by decide,
    watch_accepts_any_string [] "missing.xyz"
      ["index.html", "batch.html", "styles.css"] (by decide)⟩

/-- Claim C5: `serve` is the last call of `main` — nothing follows it in
the trace — and the serving loop never leaves the Serving state, so `main`
does not return while serving: the process runs until externally
terminated. -/
theorem serve_blocks_indefinitely (n : Nat) :
    mainEvents.getLast? = some (Event.serveCall 5173 ".") ∧
    (fromServe mainEvents).drop 1 = [] ∧
    lifeAfter n LifeState.Serving = LifeState.Serving := by
  refine ⟨by decide, by decide, ?_⟩
  induction n with
  | zero => rfl
  | succ k ih => exact ih

/-- Claim C6: the response body for an HTML file is the original content
with exactly one reload-script fragment appended — the same characters
plus one non-empty fragment, nothing else modified. -/
theorem html_response_adds_one_fragment (content : String) :
    respondBody true content = content ++ reloadScriptFragment ∧
    (respondBody true content).length =
      content.length + reloadScriptFragment.length ∧
    reloadScriptFragment ≠ "" := by
  refine ⟨rfl, ?_, by decide⟩
  simp [respondBody]

/-- Claim C7: the response body for a non-HTML file is identical to the
file's content: no injection or other transformation. -/
theorem non_html_response_identical (content : String) :
    respondBody false content = content := rfl

/-- Claim C8: when the requested port is already bound, `serve` fails with
`BindError` having served zero requests, for any state of the root
directory. -/
theorem bind_failure_is_fatal (rootExists portFree : Bool)
    (h : portFree = false) :
    (serveStart portFree rootExists).outcome = some ServeError.BindError ∧
    (serveStart portFree rootExists).requestsServed = 0 := by
  subst h
  exact ⟨rfl, rfl⟩

/-- Witness for C8 with the port taken and the root present. -/
theorem bind_failure_is_fatal_witness :
    (serveStart false true).outcome = some ServeError.BindError ∧
    (serveStart false true).requestsServed = 0 :=
  bind_failure_is_fatal true false rfl

/-- Claim C9: every reload notification emitted for a change matching the
WatchSet is a live style-injection exactly when the changed file is a
recognized stylesheet, and a full page reload exactly otherwise. -/
theorem reload_policy_stylesheet_vs_full (ws : List String)
    (clients : List Nat) (changed : String) (c : Nat) (k : ReloadKind)
    (h : (c, k) ∈ notifyClients ws clients changed) :
    (k = ReloadKind.liveCSS ↔ recognizedStylesheet changed = true) ∧
    (k = ReloadKind.fullReload ↔ recognizedStylesheet changed = false) := by
  unfold notifyClients at h
  by_cases hm : (ws.any fun p => globMatch p changed) = true
  · rw [if_pos hm] at h
    simp only [List.mem_map] at h
    obtain ⟨a, -, ha⟩ := h
    have hk : k = reloadKindFor changed := by
      have h2 := congrArg Prod.snd ha
      simpa using h2.symm
    subst hk
    cases hs : recognizedStylesheet changed <;> simp [reloadKindFor, hs]
  · rw [if_neg hm] at h
    exact absurd h (List.not_mem_nil _)

/-- Witness for C9: a change to `styles.css`, matching the registered
pattern `styles.css`, notifies client `0` with a live style-injection. -/
theorem reload_policy_stylesheet_vs_full_witness :
    (0, ReloadKind.liveCSS) ∈ notifyClients ["styles.css"] [0] "styles.css" ∧
    ((ReloadKind.liveCSS = ReloadKind.liveCSS ↔
        recognizedStylesheet "styles.css" = true) ∧
      (ReloadKind.liveCSS = ReloadKind.fullReload ↔
        recognizedStylesheet "styles.css" = false)) :=
  ⟨by decide,
    reload_policy_stylesheet_vs_full ["styles.css"] [0] "styles.css" 0
      ReloadKind.liveCSS (by decide)⟩

end DevServe
